import Mathlib

/-!
Verification of the paystream payment library (TypeScript) against its
natural-language specification.  The definitions below are a shallow
embedding of the source files:

  * `src/utils/crypto.ts`        — `aesGcmDecrypt` and helpers,
  * `src/providers/alipay/AlipayProvider.ts`,
  * `src/providers/wechat/WechatProvider.ts`,
  * `src/providers/base/BaseProvider.ts`,
  * `src/utils/wechatpay-v2.ts`  — `WechatPayV2Client`,
  * `src/core/PaymentManagerV2.ts`.

JavaScript strings become Lean `String`s, JavaScript values that may be
`undefined`/`null`/string/number become `JsVal`, objects become
association lists, thrown `PaymentError`s become `Except PayErr`, and
network/crypto collaborators become explicit function parameters
(oracles), matching the mocking boundary the spec's testable properties
use.  Timed waits (`sleep`) advance an explicit virtual clock measured
in milliseconds.
-/

namespace PayStream

/-- A JavaScript value as it occurs in the parameter maps handled by the
sign-string builders: `undefined`, `null`, a string, or a number. -/
inductive JsVal where
  | undef
  | null
  | vstr (s : String)
  | vnum (n : Nat)
deriving DecidableEq, Repr

/-- JavaScript string conversion (`String(v)` / template literal):
`undefined` renders as "undefined", `null` as "null", numbers via
decimal notation. -/
def JsVal.render : JsVal → String
  | .undef => "undefined"
  | .null => "null"
  | .vstr s => s
  | .vnum n => toString n

/-- A JavaScript object: an association list with (by JS semantics)
pairwise-distinct keys. -/
abbrev Params := List (String × JsVal)

/-- First-match association-list lookup (JS property access). -/
def lookupStr {α : Type} : List (String × α) → String → Option α
  | [], _ => none
  | (k, v) :: rest, key => if k = key then some v else lookupStr rest key

/-- Lexicographic strict order on character lists by code point, the
order JavaScript's default `Array.prototype.sort` comparator induces on
(BMP) strings. -/
def ltCharList : List Char → List Char → Bool
  | [], [] => false
  | [], _ :: _ => true
  | _ :: _, [] => false
  | a :: as, b :: bs =>
    if a.toNat < b.toNat then true
    else if b.toNat < a.toNat then false
    else ltCharList as bs

/-- Strict lexicographic order on strings. -/
def strLt (a b : String) : Bool := ltCharList a.data b.data

/-- Reflexive lexicographic order on strings. -/
def strLe (a b : String) : Bool := !(strLt b a)

/-- The order used to sort parameter keys, as a proposition. -/
def jsLeR (a b : String) : Prop := strLe a b = true

instance : DecidableRel jsLeR := fun a b => instDecidableEqBool (strLe a b) true

/-- Key sorting (JavaScript `Object.keys(x).sort()`). -/
def jsSortKeys (l : List String) : List String := l.insertionSort jsLeR

/-- The filter of `AlipayProvider.buildSignString` (lines 246-255):
keep a key unless it is `sign` or `sign_type`, or its value is the
empty string, or its value is loosely equal to `null`
(`params[key] != null` excludes both `null` and `undefined`). -/
def alipayKeep (kv : String × JsVal) : Bool :=
  kv.1 ≠ "sign" && kv.1 ≠ "sign_type" && kv.2 ≠ JsVal.vstr "" &&
    kv.2 ≠ JsVal.null && kv.2 ≠ JsVal.undef

/-- The kept, stringified entries of `AlipayProvider.buildSignString`. -/
def alipayFiltered (params : Params) : List (String × String) :=
  (params.filter alipayKeep).map (fun kv => (kv.1, kv.2.render))

/-- `AlipayProvider.buildSignString`: filter, sort keys ascending, join
as `k1=v1&k2=v2&...`. -/
def buildSignString (params : Params) : String :=
  let filteredParams := alipayFiltered params
  let sortedKeys := jsSortKeys (filteredParams.map Prod.fst)
  String.intercalate "&"
    (sortedKeys.map (fun k => k ++ "=" ++ ((lookupStr filteredParams k).getD "")))

/-- The filter of `WechatPayV2Client.generateSignature` (lines 350-353):
keep a key unless its value is `undefined` or the empty string or the
key is `sign`.  (Note: `null` values are kept, since the source tests
only `!== undefined` and `!== ''`.) -/
def wechatKeep (kv : String × JsVal) : Bool :=
  kv.2 ≠ JsVal.undef && kv.2 ≠ JsVal.vstr "" && kv.1 ≠ "sign"

/-- The kept entries of `WechatPayV2Client.generateSignature`. -/
def wechatFiltered (params : Params) : Params :=
  params.filter wechatKeep

/-- The canonical string of `WechatPayV2Client.generateSignature`
(lines 363-367): filtered entries, keys sorted ascending, joined as
`k=v` with `&`, followed by the `&key=<apiKey>` suffix. -/
def wechatSignString (params : Params) (apiKey : String) : String :=
  let filteredParams := wechatFiltered params
  let sortedKeys := jsSortKeys (filteredParams.map Prod.fst)
  (String.intercalate "&"
      (sortedKeys.map (fun k =>
        k ++ "=" ++ ((lookupStr filteredParams k).getD JsVal.undef).render)))
    ++ "&key=" ++ apiKey

/-- `WechatPayV2Client.generateSignature`: the keyed hash (MD5 or
HMAC-SHA256, uppercase hex) of the canonical string.  The digest
primitive is a parameter of the embedding. -/
def generateSignature (hash : String → String) (params : Params)
    (apiKey : String) : String :=
  hash (wechatSignString params apiKey)

/-- The unified trade status of `UnifiedPaymentNotification.tradeStatus`. -/
inductive TradeStatus where
  | SUCCESS
  | FAIL
  | PENDING
deriving DecidableEq, Repr

/-- `WechatProvider.mapTradeStatus` (lines 292-309): the switch over
gateway trade states, defaulting to PENDING. -/
def wechatMapTradeStatus (tradeState : String) : TradeStatus :=
  if tradeState = "SUCCESS" then .SUCCESS
  else if tradeState = "REFUND" ∨ tradeState = "CLOSED" ∨
      tradeState = "REVOKED" ∨ tradeState = "PAYERROR" then .FAIL
  else if tradeState = "USERPAYING" ∨ tradeState = "NOTPAY" then .PENDING
  else .PENDING

/-- `AlipayProvider.mapTradeStatus` (lines 290-304): the switch over
gateway trade statuses, defaulting to PENDING. -/
def alipayMapTradeStatus (tradeStatus : String) : TradeStatus :=
  if tradeStatus = "TRADE_SUCCESS" ∨ tradeStatus = "TRADE_FINISHED" then .SUCCESS
  else if tradeStatus = "TRADE_CLOSED" then .FAIL
  else if tradeStatus = "WAIT_BUYER_PAY" then .PENDING
  else .PENDING

/-- `PaymentErrorCode` from `src/types/payment.ts`. -/
inductive PayCode where
  | VERIFY_FAILED
  | DECRYPT_FAILED
  | CONFIG_ERROR
  | NETWORK_ERROR
  | UNKNOWN_PROVIDER
  | INVALID_PARAMS
deriving DecidableEq, Repr

/-- A thrown `PaymentError` (code and message; the `details` payload is
not modelled). -/
structure PayErr where
  code : PayCode
  msg : String
deriving DecidableEq, Repr

/-- JavaScript truthiness for the values occurring in callback
payloads: `undefined`, `null`, `''` and `0` are falsy. -/
def jsTruthy : JsVal → Bool
  | .undef => false
  | .null => false
  | .vstr s => s ≠ ""
  | .vnum n => n ≠ 0

/-- The string content of a payload field (callback `sign`/id fields
are strings on the wire; non-string values read as `""` here). -/
def jsvalStr : Option JsVal → String
  | some (.vstr s) => s
  | _ => ""

/-- `listStartsWith s p`: `p` is a prefix of `s`. -/
def listStartsWith : List Char → List Char → Bool
  | _, [] => true
  | [], _ :: _ => false
  | a :: as, b :: bs => a = b && listStartsWith as bs

/-- Substring occurrence on character lists. -/
def listIncludes : List Char → List Char → Bool
  | [], sub => sub.isEmpty
  | a :: as, sub => listStartsWith (a :: as) sub || listIncludes as sub

/-- JavaScript `String.prototype.includes`. -/
def jsIncludes (s sub : String) : Bool := listIncludes s.data sub.data

/-- The result record of a provider's `verifySignature` step (the
diagnostic `details` field carries no logic and is not modelled). -/
structure VerifyResult where
  success : Bool
  error : Option String
deriving DecidableEq, Repr

/-- The fields of the decrypted WeChat transaction object
(`WechatTransactionData`) that `transformNotification` reads. -/
structure WechatTx where
  out_trade_no : String
  transaction_id : String
  trade_state : String
  amountTotal : Nat
  payerOpenid : String
deriving DecidableEq, Repr

/-- The gateway-native payload echoed in a notification's `raw` field:
the callback parameter object for alipay, the decrypted transaction
object for wechat. -/
inductive RawEcho where
  | obj (p : Params)
  | tx (t : WechatTx)
deriving DecidableEq, Repr

/-- `UnifiedPaymentNotification` (the `raw` echo and wall-clock
`timestamp` carry no logic and are reproduced as given). -/
structure UnifiedNotification where
  provider : String
  tradeStatus : TradeStatus
  outTradeNo : String
  tradeNo : String
  totalAmount : Int
  payerId : String
  raw : RawEcho
  timestamp : Nat
deriving DecidableEq, Repr

/-- `AlipayProvider` configuration (the fields its notify pipeline
reads). -/
structure AlipayCfg where
  enabled : Bool
  alipayPublicKey : String
deriving DecidableEq, Repr

/-- `AlipayProvider.validatePayload` (lines 160-194): reject a missing
body, a falsy required field, or missing signature information. -/
def alipayValidatePayload (raw : Option Params) : Except PayErr Unit := do
  match raw with
  | none => throw ⟨.INVALID_PARAMS, "支付宝回调数据为空"⟩
  | some params =>
    let requiredCheck := fun (field : String) =>
      if jsTruthy ((lookupStr params field).getD .undef) then Except.ok ()
      else throw (⟨.INVALID_PARAMS, "支付宝回调缺少必要字段: " ++ field⟩ : PayErr)
    _ ← requiredCheck "notify_id"
    _ ← requiredCheck "notify_type"
    _ ← requiredCheck "trade_status"
    _ ← requiredCheck "out_trade_no"
    _ ← requiredCheck "trade_no"
    if jsTruthy ((lookupStr params "sign").getD .undef) &&
        jsTruthy ((lookupStr params "sign_type").getD .undef) then
      Except.ok ()
    else
      throw ⟨.INVALID_PARAMS, "支付宝回调缺少签名信息"⟩

/-- `AlipayProvider.verifySignature` (lines 199-237).  The two RSA
verification primitives of `src/utils/crypto.ts` (`verifyWithRSA2`,
`verifyWithRSA`: data, base64 signature, public key → valid?) are
parameters of the embedding. -/
def alipayVerifySignature (verify2 verify1 : String → String → String → Bool)
    (pub : String) (params : Params) : VerifyResult :=
  let sign := jsvalStr (lookupStr params "sign")
  let signType := lookupStr params "sign_type"
  let signString := buildSignString params
  if signType = some (JsVal.vstr "RSA2") then
    let isValid := verify2 signString sign pub
    ⟨isValid, if isValid then none else some "签名验证失败"⟩
  else if signType = some (JsVal.vstr "RSA") then
    let isValid := verify1 signString sign pub
    ⟨isValid, if isValid then none else some "签名验证失败"⟩
  else
    ⟨false, some ("不支持的签名类型: " ++ ((signType.getD .undef).render))⟩

/-- `AlipayProvider.transformNotification` (lines 267-285).
`parseYuanToFen` stands for `Math.round(parseFloat(s) * 100)` (decimal
yuan to integer fen) and `now` for `Date.now()`. -/
def alipayTransformNotification (parseYuanToFen : String → Int) (now : Nat)
    (params : Params) : UnifiedNotification :=
  { provider := "alipay"
    tradeStatus := alipayMapTradeStatus (jsvalStr (lookupStr params "trade_status"))
    outTradeNo := jsvalStr (lookupStr params "out_trade_no")
    tradeNo := jsvalStr (lookupStr params "trade_no")
    totalAmount := parseYuanToFen (((lookupStr params "total_amount").getD .undef).render)
    payerId := jsvalStr (lookupStr params "buyer_id")
    raw := RawEcho.obj params
    timestamp := now }

/-- `BaseProvider.handleNotify` (lines 83-124) specialised to
`AlipayProvider`: enabled check, then validate → verify → transform
(the alipay `postProcess` only logs). -/
def alipayHandleNotify (verify2 verify1 : String → String → String → Bool)
    (parseYuanToFen : String → Int) (now : Nat) (cfg : AlipayCfg)
    (raw : Option Params) : Except PayErr UnifiedNotification := do
  if !cfg.enabled then
    throw ⟨.CONFIG_ERROR, "alipay 支付提供商未启用"⟩
  _ ← alipayValidatePayload raw
  let params := raw.getD []
  let verifyResult := alipayVerifySignature verify2 verify1 cfg.alipayPublicKey params
  if !verifyResult.success then
    throw ⟨.VERIFY_FAILED,
      "alipay 签名验证失败: " ++ (verifyResult.error.getD "未知错误")⟩
  pure (alipayTransformNotification parseYuanToFen now params)

/-- A gateway acknowledgment (`createResponse` result). -/
structure AckResponse where
  status : Nat
  body : String
  contentType : String
deriving DecidableEq, Repr

/-- `AlipayProvider.createResponse` (lines 399-416): on success the
literal `success`/200; on failure `generateFailureResponse()` (the
literal `failure`, since no argument is passed) with status 401 when
the error message contains "验签" and 400 otherwise, as
`text/plain`. -/
def alipayCreateResponse (success : Bool) (error : Option String) : AckResponse :=
  { status :=
      if success then 200
      else if (match error with
        | some e => jsIncludes e "验签"
        | none => false) then 401
      else 400
    body := if success then "success" else "failure"
    contentType := "text/plain" }

/-! ### The synchronous micropayment state machine
(`WechatPayV2Client.processMicropay` / `pollPaymentResult`,
`src/utils/wechatpay-v2.ts` lines 600-740).

The gateway is mocked at the `micropay`/`queryOrder`/`reverseOrder`
boundary, exactly as the spec's testable properties require: the parsed
response of the initial micropay call and of the n-th query call, and
the outcome of a reversal call, are oracle parameters.  `sleep` advances
a virtual millisecond clock. -/

/-- The fields of a parsed WeChat-Pay V2 response that the state
machine inspects. -/
structure V2Resp where
  return_code : Option String := none
  return_msg : Option String := none
  result_code : Option String := none
  err_code : Option String := none
  err_code_des : Option String := none
  trade_state : Option String := none
  trade_state_desc : Option String := none
deriving DecidableEq, Repr

/-- JavaScript `a || b` for optional strings (`undefined` and `''` are
falsy). -/
def jsOrStr (o : Option String) (d : String) : String :=
  match o with
  | some s => if s = "" then d else s
  | none => d

/-- The observable side-effect state of a micropay flow run: the
virtual clock (ms), the number of query calls and the number of
reversal calls issued so far. -/
structure MicropayState where
  now : Nat
  queries : Nat
  reverses : Nat
deriving DecidableEq, Repr

/-- `WechatPayV2Client.pollPaymentResult` (lines 691-740): while less
than `timeout` ms have elapsed since `startTime`, sleep 10 s and query.
A both-levels-successful query returns; every other outcome — including
the `PAYERROR`/`CLOSED` branch, whose thrown error is caught by the
iteration's own `catch` — continues polling.  On loop exit a single
best-effort reversal is issued (its failure swallowed) and the timeout
error is thrown. -/
def pollPaymentResult (queryO : Nat → Except PayErr V2Resp)
    (reverseO : Except PayErr V2Resp) (timeout : Nat) (startTime : Nat)
    (s : MicropayState) : MicropayState × Except PayErr V2Resp :=
  if h : s.now - startTime < timeout then
    -- one iteration: sleep 10 s, then issue the next query
    match queryO s.queries with
    | Except.ok q =>
      if q.return_code = some "SUCCESS" ∧ q.result_code = some "SUCCESS" then
        (⟨s.now + 10000, s.queries + 1, s.reverses⟩, Except.ok q)
      else if q.trade_state = some "PAYERROR" ∨ q.trade_state = some "CLOSED" then
        -- the `PaymentError` thrown here lands in the iteration's own
        -- `catch`, which logs and continues the loop
        pollPaymentResult queryO reverseO timeout startTime ⟨s.now + 10000, s.queries + 1, s.reverses⟩
      else
        pollPaymentResult queryO reverseO timeout startTime ⟨s.now + 10000, s.queries + 1, s.reverses⟩
    | Except.error _ =>
      -- query exception: logged, polling continues
      pollPaymentResult queryO reverseO timeout startTime ⟨s.now + 10000, s.queries + 1, s.reverses⟩
  else
    -- timeout: one best-effort reversal, then throw
    (⟨s.now, s.queries, s.reverses + 1⟩,
      Except.error ⟨.NETWORK_ERROR, "支付超时，订单已撤销"⟩)
termination_by startTime + timeout - s.now
decreasing_by
  all_goals omega

/-- `WechatPayV2Client.processMicropay` (lines 600-686): the
ambiguous-state reconciliation flow.  `microResp` is the parsed
response of the initial synchronous micropay call (or the error it
threw). -/
def processMicropay (microResp : Except PayErr V2Resp)
    (queryO : Nat → Except PayErr V2Resp) (reverseO : Except PayErr V2Resp)
    (s : MicropayState) : MicropayState × Except PayErr V2Resp :=
  match microResp with
  | Except.error e => (s, Except.error e)
  | Except.ok result =>
    if result.return_code = some "SUCCESS" ∧ result.result_code = some "SUCCESS" then
      (s, Except.ok result)
    else if result.err_code = some "SYSTEMERROR" then
      -- sleep 5 s, then issue one query
      match queryO s.queries with
      | Except.error e =>
        (⟨s.now + 5000, s.queries + 1, s.reverses⟩, Except.error e)
      | Except.ok q =>
        if q.return_code = some "SUCCESS" ∧ q.result_code = some "SUCCESS" then
          (⟨s.now + 5000, s.queries + 1, s.reverses⟩, Except.ok q)
        else if q.trade_state = some "NOTPAY" ∨ q.trade_state = some "PAYERROR" then
          -- reversal; note its own failure propagates on this path
          match reverseO with
          | Except.error e =>
            (⟨s.now + 5000, s.queries + 1, s.reverses + 1⟩, Except.error e)
          | Except.ok _ =>
            (⟨s.now + 5000, s.queries + 1, s.reverses + 1⟩,
              Except.error ⟨.NETWORK_ERROR, "系统错误，支付状态不明确"⟩)
        else
          (⟨s.now + 5000, s.queries + 1, s.reverses⟩,
            Except.error ⟨.NETWORK_ERROR, "系统错误，支付状态不明确"⟩)
    else if result.err_code = some "USERPAYING" then
      pollPaymentResult queryO reverseO 45000 s.now s
    else
      (s, Except.error ⟨.NETWORK_ERROR,
        jsOrStr result.err_code_des (jsOrStr result.return_msg "付款码支付失败")⟩)

/-- One non-successful poll iteration advances the clock by 10 s,
issues one query and continues. -/
theorem pollPaymentResult_step (queryO : Nat → Except PayErr V2Resp)
    (reverseO : Except PayErr V2Resp) (startTime n q r : Nat)
    (hlt : n - startTime < 45000)
    (hq : ∀ resp, queryO q = Except.ok resp →
      ¬(resp.return_code = some "SUCCESS" ∧ resp.result_code = some "SUCCESS")) :
    pollPaymentResult queryO reverseO 45000 startTime ⟨n, q, r⟩ =
      pollPaymentResult queryO reverseO 45000 startTime ⟨n + 10000, q + 1, r⟩ := by
  conv_lhs => rw [pollPaymentResult.eq_def]
  rw [dif_pos hlt]
  cases hqo : queryO q with
  | error e => rfl
  | ok resp =>
    have hns := hq resp hqo
    simp only [hns, if_false, ite_self]

/-- Once the 45 s budget is exhausted the loop reverses once and throws
the timeout error. -/
theorem pollPaymentResult_timeout (queryO : Nat → Except PayErr V2Resp)
    (reverseO : Except PayErr V2Resp) (startTime n q r : Nat)
    (hge : ¬(n - startTime < 45000)) :
    pollPaymentResult queryO reverseO 45000 startTime ⟨n, q, r⟩ =
      (⟨n, q, r + 1⟩,
        Except.error ⟨.NETWORK_ERROR, "支付超时，订单已撤销"⟩) := by
  conv_lhs => rw [pollPaymentResult.eq_def]
  rw [dif_neg hge]

/-- Shared computation: a micropay flow that starts with the
"user paying" business code and whose queries never report success
polls five times (10 s apart), then reverses once and throws the
timeout error, 50 s after entry. -/
theorem processMicropay_userpaying_run (micro : V2Resp)
    (queryO : Nat → Except PayErr V2Resp) (reverseO : Except PayErr V2Resp)
    (n0 q0 r0 : Nat)
    (hm1 : micro.err_code = some "USERPAYING")
    (hm2 : ¬(micro.return_code = some "SUCCESS" ∧ micro.result_code = some "SUCCESS"))
    (hq : ∀ n resp, queryO n = Except.ok resp →
      ¬(resp.return_code = some "SUCCESS" ∧ resp.result_code = some "SUCCESS")) :
    processMicropay (Except.ok micro) queryO reverseO ⟨n0, q0, r0⟩ =
      (⟨n0 + 50000, q0 + 5, r0 + 1⟩,
        Except.error ⟨PayCode.NETWORK_ERROR, "支付超时，订单已撤销"⟩) := by
  have hsys : ¬(micro.err_code = some "SYSTEMERROR") := by
    rw [hm1]
    simp
  have e1 := pollPaymentResult_step queryO reverseO n0 n0 q0 r0 (by omega)
    (fun resp hh => hq q0 resp hh)
  have e2 := pollPaymentResult_step queryO reverseO n0 (n0 + 10000) (q0 + 1) r0 (by omega)
    (fun resp hh => hq (q0 + 1) resp hh)
  have e3 := pollPaymentResult_step queryO reverseO n0 (n0 + 10000 + 10000) (q0 + 1 + 1) r0
    (by omega) (fun resp hh => hq (q0 + 1 + 1) resp hh)
  have e4 := pollPaymentResult_step queryO reverseO n0 (n0 + 10000 + 10000 + 10000)
    (q0 + 1 + 1 + 1) r0 (by omega) (fun resp hh => hq (q0 + 1 + 1 + 1) resp hh)
  have e5 := pollPaymentResult_step queryO reverseO n0 (n0 + 10000 + 10000 + 10000 + 10000)
    (q0 + 1 + 1 + 1 + 1) r0 (by omega) (fun resp hh => hq (q0 + 1 + 1 + 1 + 1) resp hh)
  have e6 := pollPaymentResult_timeout queryO reverseO n0
    (n0 + 10000 + 10000 + 10000 + 10000 + 10000) (q0 + 1 + 1 + 1 + 1 + 1) r0 (by omega)
  have E := e1.trans (e2.trans (e3.trans (e4.trans (e5.trans e6))))
  have h1 : n0 + 10000 + 10000 + 10000 + 10000 + 10000 = n0 + 50000 := by omega
  have h2 : q0 + 1 + 1 + 1 + 1 + 1 = q0 + 5 := by omega
  rw [h1, h2] at E
  simp only [processMicropay, hm2, hsys, hm1, if_false, if_true, ite_false, ite_true]
  exact E

/-- Claim C2, counterexample.  With the micropay call answering
"user paying" and every query inconclusive, the flow does issue exactly
one reversal, but it terminates 50 000 ms of slept wall-clock time
after entry — the loop condition is checked before each 10 s sleep, so
five full iterations run before the 45 s bound is seen exceeded.  The
claim's "at or before 45 seconds" is therefore false. -/
theorem claim_C2_counterexample :
    processMicropay
      (Except.ok ⟨some "SUCCESS", some "OK", some "FAIL", some "USERPAYING", none, none, none⟩)
      (fun _ => Except.ok ⟨some "SUCCESS", none, some "FAIL", none, none, some "USERPAYING", none⟩)
      (Except.ok ⟨some "SUCCESS", none, none, none, none, none, none⟩) ⟨0, 0, 0⟩ =
      ((⟨50000, 5, 1⟩ : MicropayState),
        Except.error ⟨PayCode.NETWORK_ERROR, "支付超时，订单已撤销"⟩) ∧
      ¬(50000 ≤ 45000) := by
  refine ⟨?_, by omega⟩
  exact processMicropay_userpaying_run _ _ _ 0 0 0 rfl (by simp)
    (fun n resp hh => by
      cases hh
      simp)

/-- Claim C2, amended.  If the synchronous micropayment call returns
the "user paying" business code and every subsequent query is
inconclusive (never reports both transport- and business-level
success), `processMicropay`/`pollPaymentResult`, polling at the fixed
10-second interval, terminates with the timeout domain error after
exactly 50 seconds of slept wall-clock time — i.e. within the 45-second
budget plus one final 10-second poll interval, not within 45 seconds —
and issues exactly one reversal call (and exactly five queries). -/
theorem claim_C2_poll_timeout (micro : V2Resp)
    (queryO : Nat → Except PayErr V2Resp) (reverseO : Except PayErr V2Resp)
    (n0 q0 r0 : Nat)
    (hm1 : micro.err_code = some "USERPAYING")
    (hm2 : ¬(micro.return_code = some "SUCCESS" ∧ micro.result_code = some "SUCCESS"))
    (hq : ∀ n resp, queryO n = Except.ok resp →
      ¬(resp.return_code = some "SUCCESS" ∧ resp.result_code = some "SUCCESS")) :
    processMicropay (Except.ok micro) queryO reverseO ⟨n0, q0, r0⟩ =
      (⟨n0 + 50000, q0 + 5, r0 + 1⟩,
        Except.error ⟨PayCode.NETWORK_ERROR, "支付超时，订单已撤销"⟩) ∧
      n0 + 50000 ≤ n0 + 45000 + 10000 :=
  ⟨processMicropay_userpaying_run micro queryO reverseO n0 q0 r0 hm1 hm2 hq,
    by omega⟩

/-- Claim C2, witness: the amended theorem at a concrete
always-user-paying mock. -/
theorem claim_C2_witness :
    processMicropay
      (Except.ok ⟨some "SUCCESS", none, some "FAIL", some "USERPAYING", none, none, none⟩)
      (fun _ => Except.ok ⟨some "FAIL", none, none, none, none, none, none⟩)
      (Except.error ⟨PayCode.NETWORK_ERROR, "rev down"⟩) ⟨100, 2, 3⟩ =
      ((⟨100 + 50000, 2 + 5, 3 + 1⟩ : MicropayState),
        Except.error ⟨PayCode.NETWORK_ERROR, "支付超时，订单已撤销"⟩) :=
  (claim_C2_poll_timeout _ _ _ 100 2 3 rfl (by simp)
    (fun n resp hh => by
      cases hh
      simp)).1

/-- Claim C3, counterexample.  After a SYSTEMERROR micropay response,
when the 5-second-grace query reports an inconclusive trade state other
than NOTPAY/PAYERROR (here USERPAYING), the code raises the "status
indeterminate" error **without** issuing the reversal call the claim
requires: the reversal counter stays 0. -/
theorem claim_C3_counterexample :
    processMicropay
      (Except.ok ⟨some "FAIL", none, none, some "SYSTEMERROR", none, none, none⟩)
      (fun _ => Except.ok ⟨some "SUCCESS", none, some "FAIL", none, none, some "USERPAYING", none⟩)
      (Except.ok ⟨some "SUCCESS", none, none, none, none, none, none⟩) ⟨0, 0, 0⟩ =
      ((⟨5000, 1, 0⟩ : MicropayState),
        Except.error ⟨PayCode.NETWORK_ERROR, "系统错误，支付状态不明确"⟩) ∧
      (0 : Nat) ≠ 1 :=
  ⟨rfl, by omega⟩

/-- Claim C3, amended.  On the SYSTEMERROR business code,
`processMicropay` waits the fixed 5-second grace period and issues
exactly one query; if that query reports both transport- and
business-level success the flow returns it as the successful outcome
with no polling loop and no reversal; if the query is not successful, a
"status indeterminate" domain error is raised, and a reversal call is
issued exactly when the query's trade state is NOTPAY or PAYERROR (for
other inconclusive or failed states no reversal is issued; the
reversal, when issued and itself successful, precedes the error). -/
theorem claim_C3_systemerror_flow (micro q : V2Resp)
    (queryO : Nat → Except PayErr V2Resp) (revResp : V2Resp) (n0 q0 r0 : Nat)
    (hm1 : micro.err_code = some "SYSTEMERROR")
    (hm2 : ¬(micro.return_code = some "SUCCESS" ∧ micro.result_code = some "SUCCESS"))
    (hq0 : queryO q0 = Except.ok q) :
    (q.return_code = some "SUCCESS" ∧ q.result_code = some "SUCCESS" →
      processMicropay (Except.ok micro) queryO (Except.ok revResp) ⟨n0, q0, r0⟩ =
        (⟨n0 + 5000, q0 + 1, r0⟩, Except.ok q)) ∧
    (¬(q.return_code = some "SUCCESS" ∧ q.result_code = some "SUCCESS") →
      processMicropay (Except.ok micro) queryO (Except.ok revResp) ⟨n0, q0, r0⟩ =
        (⟨n0 + 5000, q0 + 1,
            if q.trade_state = some "NOTPAY" ∨ q.trade_state = some "PAYERROR"
            then r0 + 1 else r0⟩,
          Except.error ⟨PayCode.NETWORK_ERROR, "系统错误，支付状态不明确"⟩)) := by
  constructor
  · intro hsucc
    simp [processMicropay, hm1, hm2, hq0, hsucc]
  · intro hns
    by_cases hts : q.trade_state = some "NOTPAY" ∨ q.trade_state = some "PAYERROR"
    · simp [processMicropay, hm1, hm2, hq0, hns, hts]
    · simp [processMicropay, hm1, hm2, hq0, hns, hts]

/-- Claim C3, witness: the amended theorem's early-exit half at a
concrete mock (system error, then a fully successful query): the flow
returns the query result after one query, 5 s, no reversal. -/
theorem claim_C3_witness :
    processMicropay
      (Except.ok ⟨some "SUCCESS", none, some "FAIL", some "SYSTEMERROR", none, none, none⟩)
      (fun _ => Except.ok ⟨some "SUCCESS", none, some "SUCCESS", none, none, some "SUCCESS", none⟩)
      (Except.ok ⟨some "SUCCESS", none, none, none, none, none, none⟩) ⟨0, 0, 0⟩ =
      ((⟨5000, 1, 0⟩ : MicropayState),
        Except.ok ⟨some "SUCCESS", none, some "SUCCESS", none, none, some "SUCCESS", none⟩) :=
  (claim_C3_systemerror_flow _ _ _ _ 0 0 0 rfl (by simp) rfl).1 (by simp)

/-! ### `WechatProvider.queryOrder` / `WechatProvider.refund`
(`src/providers/wechat/WechatProvider.ts` lines 500-613), over an
oracle for the `WechatPayV3Client` gateway calls, with an explicit
trace of the calls issued. -/

/-- Truthiness of an optional string (`if (request.tradeNo)`). -/
def optTruthy : Option String → Bool
  | some s => s ≠ ""
  | none => false

/-- JavaScript `a || b` on optional strings, where the result may stay
absent. -/
def jsOrOpt (a b : Option String) : Option String :=
  match a with
  | some s => if s = "" then b else a
  | none => b

/-- The fields of a parsed V3 order-query response that
`WechatProvider.queryOrder` reads. -/
structure V3Order where
  trade_state : String
  out_trade_no : String
  transaction_id : String
  amountTotal : Nat
  amountPayerTotal : Nat
  payerOpenid : String
  success_time : Option String
deriving DecidableEq, Repr

/-- The refund parameter object `WechatProvider.refund` builds
(lines 568-584). -/
structure RefundParams where
  out_refund_no : String
  reason : String
  amountRefund : Nat
  amountTotal : Nat
  transaction_id : Option String
  out_trade_no : Option String
  notifyUrl : Option String
deriving DecidableEq, Repr

/-- The fields of a parsed V3 refund response that
`WechatProvider.refund` reads. -/
structure V3Refund where
  refund_id : String
  out_refund_no : String
  status : String
  amountRefund : Nat
  success_time : Option String
  create_time : Option String
deriving DecidableEq, Repr

/-- A gateway call issued through `WechatPayV3Client`. -/
inductive GatewayCall where
  | queryByTransactionId (tid mchId : String)
  | queryByOutTradeNo (outTradeNo mchId : String)
  | createRefund (p : RefundParams)
deriving DecidableEq, Repr

/-- The `WechatPayV3Client` gateway oracle: parsed responses (or thrown
error messages) for each call. -/
structure WechatClientOracle where
  queryTx : String → Except String V3Order
  queryOut : String → Except String V3Order
  refundResp : RefundParams → Except String V3Refund

/-- `QueryOrderRequest` / `RefundRequest` identifier pair. -/
structure QueryReq where
  tradeNo : Option String
  outTradeNo : Option String
deriving DecidableEq, Repr

/-- The `orderInfo` record of a successful `queryOrder`. -/
structure OrderInfo where
  tradeStatus : TradeStatus
  outTradeNo : String
  tradeNo : String
  totalAmount : Nat
  receiptAmount : Nat
  payerId : String
  createTime : String
  payTime : String
deriving DecidableEq, Repr

/-- `QueryOrderResponse`. -/
structure QueryResp where
  success : Bool
  orderInfo : Option OrderInfo
  error : Option String
deriving DecidableEq, Repr

/-- `WechatProvider.queryOrder` (lines 500-543): dispatch on which
identifier is supplied (gateway trade id preferred), map the response;
with neither identifier, fail as a caught validation error without any
gateway call.  `nowIso` stands for `new Date().toISOString()`. -/
def wechatQueryOrder (oracle : WechatClientOracle) (mchId nowIso : String)
    (req : QueryReq) : List GatewayCall × QueryResp :=
  if optTruthy req.tradeNo then
    let tid := req.tradeNo.getD ""
    match oracle.queryTx tid with
    | Except.error e =>
      ([GatewayCall.queryByTransactionId tid mchId], ⟨false, none, some e⟩)
    | Except.ok result =>
      ([GatewayCall.queryByTransactionId tid mchId],
        ⟨true, some
          { tradeStatus := wechatMapTradeStatus result.trade_state
            outTradeNo := result.out_trade_no
            tradeNo := result.transaction_id
            totalAmount := result.amountTotal
            receiptAmount := result.amountPayerTotal
            payerId := result.payerOpenid
            createTime := nowIso
            payTime := jsOrStr result.success_time nowIso }, none⟩)
  else if optTruthy req.outTradeNo then
    let otn := req.outTradeNo.getD ""
    match oracle.queryOut otn with
    | Except.error e =>
      ([GatewayCall.queryByOutTradeNo otn mchId], ⟨false, none, some e⟩)
    | Except.ok result =>
      ([GatewayCall.queryByOutTradeNo otn mchId],
        ⟨true, some
          { tradeStatus := wechatMapTradeStatus result.trade_state
            outTradeNo := result.out_trade_no
            tradeNo := result.transaction_id
            totalAmount := result.amountTotal
            receiptAmount := result.amountPayerTotal
            payerId := result.payerOpenid
            createTime := nowIso
            payTime := jsOrStr result.success_time nowIso }, none⟩)
  else
    ([], ⟨false, none, some "必须提供 tradeNo 或 outTradeNo"⟩)

/-- `RefundRequest` (the fields `WechatProvider.refund` reads). -/
structure RefundReq where
  tradeNo : Option String
  outTradeNo : Option String
  outRefundNo : String
  refundAmount : Nat
  refundReason : Option String
  notifyUrl : Option String
deriving DecidableEq, Repr

/-- The `refundInfo` record of a successful refund. -/
structure RefundInfo where
  refundId : String
  outRefundNo : String
  refundAmount : Nat
  refundStatus : TradeStatus
  refundTime : Option String
deriving DecidableEq, Repr

/-- `RefundResponse`. -/
structure RefundResp where
  success : Bool
  refundInfo : Option RefundInfo
  error : Option String
deriving DecidableEq, Repr

/-- The refund parameter object built at
`WechatProvider.refund` lines 568-584: the refund amount from the
request, the total echoed from the queried order. -/
def refundParamsFor (req : RefundReq) (oi : OrderInfo) : RefundParams :=
  { out_refund_no := req.outRefundNo
    reason := jsOrStr req.refundReason "商户退款"
    amountRefund := req.refundAmount
    amountTotal := oi.totalAmount
    transaction_id := if optTruthy req.tradeNo then req.tradeNo else none
    out_trade_no :=
      if optTruthy req.tradeNo then none
      else if optTruthy req.outTradeNo then req.outTradeNo else none
    notifyUrl := req.notifyUrl }

/-- `WechatProvider.refund` (lines 548-613): with an identifier
supplied, first query the original order for its total amount, then
issue the refund echoing that total; with neither identifier, return a
caught validation failure without any gateway call. -/
def wechatRefund (oracle : WechatClientOracle) (mchId nowIso : String)
    (req : RefundReq) : List GatewayCall × RefundResp :=
  if optTruthy req.tradeNo || optTruthy req.outTradeNo then
    match wechatQueryOrder oracle mchId nowIso ⟨req.tradeNo, req.outTradeNo⟩ with
    | (qcalls, qres) =>
      if qres.success = false then
        (qcalls, ⟨false, none, some "查询原订单失败，无法确定总金额"⟩)
      else
        match qres.orderInfo with
        | none => (qcalls, ⟨false, none, some "查询原订单失败，无法确定总金额"⟩)
        | some oi =>
          let params : RefundParams := refundParamsFor req oi
          match oracle.refundResp params with
          | Except.error e =>
            (qcalls ++ [GatewayCall.createRefund params], ⟨false, none, some e⟩)
          | Except.ok result =>
            (qcalls ++ [GatewayCall.createRefund params],
              ⟨true, some
                { refundId := result.refund_id
                  outRefundNo := result.out_refund_no
                  refundAmount := result.amountRefund
                  refundStatus :=
                    if result.status = "SUCCESS" then .SUCCESS
                    else if result.status = "CLOSED" then .FAIL
                    else .PENDING
                  refundTime := jsOrOpt result.success_time result.create_time }, none⟩)
  else
    ([], ⟨false, none, some "必须提供 tradeNo 或 outTradeNo"⟩)

/-- Claim C8: when `WechatProvider.refund` is called with a merchant
order id or a gateway trade id supplied, it first issues an order-query
call and echoes the queried order's total amount — not the refund
amount — as `amount.total` of the subsequent refund call; with neither
identifier supplied it returns a `success=false` validation result with
an error message and issues no gateway call at all. -/
theorem claim_C8_refund_roundtrip (oracle : WechatClientOracle)
    (mchId nowIso : String) (req : RefundReq) :
    ((optTruthy req.tradeNo = false ∧ optTruthy req.outTradeNo = false) →
      wechatRefund oracle mchId nowIso req =
        ([], ⟨false, none, some "必须提供 tradeNo 或 outTradeNo"⟩)) ∧
    (∀ oi : OrderInfo,
      (optTruthy req.tradeNo || optTruthy req.outTradeNo) = true →
      (wechatQueryOrder oracle mchId nowIso ⟨req.tradeNo, req.outTradeNo⟩).2 =
        ⟨true, some oi, none⟩ →
      (wechatRefund oracle mchId nowIso req).1 =
        (wechatQueryOrder oracle mchId nowIso ⟨req.tradeNo, req.outTradeNo⟩).1
          ++ [GatewayCall.createRefund (refundParamsFor req oi)] ∧
      (refundParamsFor req oi).amountTotal = oi.totalAmount ∧
      (refundParamsFor req oi).amountRefund = req.refundAmount) := by
  constructor
  · intro hids
    obtain ⟨h1, h2⟩ := hids
    simp [wechatRefund, h1, h2]
  · intro oi hid hq
    refine ⟨?_, rfl, rfl⟩
    cases hrr : oracle.refundResp (refundParamsFor req oi) with
    | error e => simp [wechatRefund, hid, hq, hrr]
    | ok r => simp [wechatRefund, hid, hq, hrr]

/-- Claim C8, witness: a concrete refund with only the merchant order
id supplied issues the query call and then the refund call echoing the
queried total (3000), and a concrete refund with no identifier fails
without gateway calls. -/
theorem claim_C8_witness :
    ((wechatRefund
        ⟨fun _ => Except.error "no tx", fun _ =>
          Except.ok ⟨"SUCCESS", "ORDER1", "TX1", 3000, 3000, "OPEN1", none⟩,
          fun _ => Except.ok ⟨"R1", "REF1", "SUCCESS", 100, none, none⟩⟩
        "1234567890" "2024-01-01T00:00:00Z"
        ⟨none, some "ORDER1", "REF1", 100, none, none⟩).1 =
      [GatewayCall.queryByOutTradeNo "ORDER1" "1234567890",
        GatewayCall.createRefund (refundParamsFor
          ⟨none, some "ORDER1", "REF1", 100, none, none⟩
          ⟨TradeStatus.SUCCESS, "ORDER1", "TX1", 3000, 3000, "OPEN1",
            "2024-01-01T00:00:00Z", "2024-01-01T00:00:00Z"⟩)] ∧
      (refundParamsFor ⟨none, some "ORDER1", "REF1", 100, none, none⟩
        ⟨TradeStatus.SUCCESS, "ORDER1", "TX1", 3000, 3000, "OPEN1",
          "2024-01-01T00:00:00Z", "2024-01-01T00:00:00Z"⟩).amountTotal = 3000) ∧
    wechatRefund
      ⟨fun _ => Except.error "no tx", fun _ => Except.error "no order",
        fun _ => Except.error "no refund"⟩
      "1234567890" "2024-01-01T00:00:00Z"
      ⟨none, none, "REF1", 100, none, none⟩ =
      ([], ⟨false, none, some "必须提供 tradeNo 或 outTradeNo"⟩) := by
  constructor
  · constructor
    · exact ((claim_C8_refund_roundtrip
        ⟨fun _ => Except.error "no tx", fun _ =>
          Except.ok ⟨"SUCCESS", "ORDER1", "TX1", 3000, 3000, "OPEN1", none⟩,
          fun _ => Except.ok ⟨"R1", "REF1", "SUCCESS", 100, none, none⟩⟩
        "1234567890" "2024-01-01T00:00:00Z"
        ⟨none, some "ORDER1", "REF1", 100, none, none⟩).2
        ⟨TradeStatus.SUCCESS, "ORDER1", "TX1", 3000, 3000, "OPEN1",
          "2024-01-01T00:00:00Z", "2024-01-01T00:00:00Z"⟩ rfl rfl).1
    · exact ((claim_C8_refund_roundtrip
        ⟨fun _ => Except.error "no tx", fun _ =>
          Except.ok ⟨"SUCCESS", "ORDER1", "TX1", 3000, 3000, "OPEN1", none⟩,
          fun _ => Except.ok ⟨"R1", "REF1", "SUCCESS", 100, none, none⟩⟩
        "1234567890" "2024-01-01T00:00:00Z"
        ⟨none, some "ORDER1", "REF1", 100, none, none⟩).2
        ⟨TradeStatus.SUCCESS, "ORDER1", "TX1", 3000, 3000, "OPEN1",
          "2024-01-01T00:00:00Z", "2024-01-01T00:00:00Z"⟩ rfl rfl).2.1
  · exact (claim_C8_refund_roundtrip
      ⟨fun _ => Except.error "no tx", fun _ => Except.error "no order",
        fun _ => Except.error "no refund"⟩
      "1234567890" "2024-01-01T00:00:00Z"
      ⟨none, none, "REF1", 100, none, none⟩).1 ⟨rfl, rfl⟩

/-! ### `PaymentManagerV2` (`src/core/PaymentManagerV2.ts`) -/

/-- What the manager sees of a registered provider: its enabled flag,
its supported method strings, and its `handleNotify` behaviour. -/
structure ProviderModel where
  enabled : Bool
  supportedMethods : List String
  notify : Option Params → Except PayErr UnifiedNotification

/-- The manager's only mutable state relevant here: the name→provider
map (the hook registry is cleared alongside it by `destroy` and plays
no role in `handleNotify`'s thrown errors). -/
structure ManagerState where
  providers : List (String × ProviderModel)

/-- `PaymentManagerV2.parseProviderName` (lines 190-193):
`method.split('.')[0]`. -/
def parseProviderName (method : String) : String :=
  ⟨method.data.takeWhile (fun c => c ≠ '.')⟩

/-- `PaymentManagerV2.getProvider` (lines 198-216): absent name →
UNKNOWN_PROVIDER; disabled provider → CONFIG_ERROR. -/
def getProvider (m : ManagerState) (providerName : String) :
    Except PayErr ProviderModel :=
  match lookupStr m.providers providerName with
  | none => Except.error ⟨.UNKNOWN_PROVIDER, "未找到 Provider: " ++ providerName⟩
  | some provider =>
    if !provider.enabled then
      Except.error ⟨.CONFIG_ERROR, providerName ++ " Provider 未启用"⟩
    else
      Except.ok provider

/-- `PaymentManagerV2.handleNotify` (lines 133-185): resolve the
provider from the method prefix, check method support, delegate.
(The status hooks fired afterwards never change the returned value:
hook exceptions are caught per handler.) -/
def managerHandleNotify (m : ManagerState) (method : String)
    (payload : Option Params) : Except PayErr UnifiedNotification := do
  let providerName := parseProviderName method
  let provider ← getProvider m providerName
  if !(provider.supportedMethods.contains method) then
    throw ⟨.INVALID_PARAMS, providerName ++ " Provider 不支持支付方式: " ++ method⟩
  provider.notify payload

/-- `PaymentManagerV2.destroy` (lines 394-401): clears the provider map
(and the hook registry). -/
def destroy (_ : ManagerState) : ManagerState := ⟨[]⟩

/-- Claim C9, counterexample.  After `destroy()`, `handleNotify`
throws `PaymentError(UNKNOWN_PROVIDER, "未找到 Provider: wechat")` — a
clear typed error, but not a "manager destroyed" error: its message
mentions destruction in neither language (`销毁`, the word `destroy`
uses in its own log line, nor "destroyed"). -/
theorem claim_C9_counterexample :
    managerHandleNotify
      (destroy ⟨[("wechat",
        ⟨true, ["wechat.native"], fun _ => Except.error ⟨.NETWORK_ERROR, "x"⟩⟩)]⟩)
      "wechat.native" none =
      Except.error ⟨PayCode.UNKNOWN_PROVIDER, "未找到 Provider: wechat"⟩ ∧
    jsIncludes "未找到 Provider: wechat" "销毁" = false ∧
    jsIncludes "未找到 Provider: wechat" "destroyed" = false := by
  refine ⟨rfl, by decide, by decide⟩

/-- Claim C9, amended.  After `PaymentManagerV2.destroy()` every
subsequent `handleNotify` call fails with the clear, typed
`UNKNOWN_PROVIDER` `PaymentError` "未找到 Provider: <prefix>" (the
provider map is empty) — a deterministic typed error rather than a
null-pointer-style failure, though not one that mentions the manager's
destruction. -/
theorem claim_C9_destroyed_manager (m : ManagerState) (method : String)
    (payload : Option Params) :
    managerHandleNotify (destroy m) method payload =
      Except.error ⟨PayCode.UNKNOWN_PROVIDER,
        "未找到 Provider: " ++ parseProviderName method⟩ := rfl

/-! ### Authenticated decryption and `WechatProvider.transformNotification`
(claim C1)

`aesGcmDecrypt` (src/utils/crypto.ts lines 17-41) base64-decodes the
ciphertext, splits off the trailing 16-byte tag and runs AES-256-GCM.
The cipher itself is modelled as an ideal authenticated-encryption
scheme over byte strings (`List Nat`): decryption succeeds exactly on
the genuine encryption under the same key/nonce/associated-data triple.
The base64 decode and tag split are part of the scheme's ciphertext
format. -/

/-- An ideal AEAD scheme: correctness plus authenticity (a ciphertext
produced under one `(key, nonce, aad)` triple decrypts only under
exactly that triple, to the original plaintext). -/
structure AEAD where
  enc : List Nat → List Nat → List Nat → List Nat → List Nat
  dec : List Nat → List Nat → List Nat → List Nat → Option (List Nat)
  dec_enc : ∀ k n a p, dec k n a (enc k n a p) = some p
  auth : ∀ k n a p k2 n2 a2 p2, dec k2 n2 a2 (enc k n a p) = some p2 →
    k2 = k ∧ n2 = n ∧ a2 = a ∧ p2 = p

/-- `aesGcmDecrypt(ciphertext, nonce, associatedData, apiV3Key)`:
parameters in this positional order, per the source signature and its
doc comment; the decipher uses `apiV3Key` as the key, `nonce` as the
IV and `associatedData` as the AAD; every failure is rethrown as
DECRYPT_FAILED. -/
def aesGcmDecrypt (A : AEAD)
    (ciphertext nonce associatedData apiV3Key : List Nat) :
    Except PayErr (List Nat) :=
  match A.dec apiV3Key nonce associatedData ciphertext with
  | some pt => Except.ok pt
  | none => Except.error ⟨.DECRYPT_FAILED, "微信支付回调数据解密失败"⟩

/-- The `resource` object of a WeChat callback notification. -/
structure WechatResource where
  ciphertext : List Nat
  nonce : List Nat
  associated_data : List Nat

/-- `WechatProvider` configuration fields used by
`transformNotification`. -/
structure WechatCfg where
  apiV3Key : List Nat

/-- `WechatProvider.transformNotification` (lines 259-287).  Note the
call-site argument order, reproduced from the source:
`aesGcmDecrypt(ciphertext, this.config.apiV3Key, nonce,
associated_data)` — the configured key is passed in the `nonce`
position, the nonce in the `associatedData` position and the
associated data in the `apiV3Key` position.  `parseTx` stands for
`JSON.parse` of the plaintext (its failure would propagate as a parse
error, wrapped by `handleNotify`'s catch). -/
def wechatTransformNotification (A : AEAD)
    (parseTx : List Nat → Option WechatTx) (now : Nat) (cfg : WechatCfg)
    (res : WechatResource) : Except PayErr UnifiedNotification :=
  match aesGcmDecrypt A res.ciphertext cfg.apiV3Key res.nonce res.associated_data with
  | Except.error e => Except.error e
  | Except.ok decryptedData =>
    match parseTx decryptedData with
    | none => Except.error ⟨.UNKNOWN_PROVIDER, "wechat 回调处理失败"⟩
    | some transactionData =>
      Except.ok
        { provider := "wechat"
          tradeStatus := wechatMapTradeStatus transactionData.trade_state
          outTradeNo := transactionData.out_trade_no
          tradeNo := transactionData.transaction_id
          totalAmount := Int.ofNat transactionData.amountTotal
          payerId := transactionData.payerOpenid
          raw := RawEcho.tx transactionData
          timestamp := now }

/-- Claim C1: evaluation of the code at the claim's input.  For a
payload whose ciphertext is a valid encryption of the transaction
under key = the configured apiV3Key, nonce = resource.nonce and
AAD = resource.associated_data, `transformNotification` does NOT
return the transaction's fields: because the call site passes the
arguments in the order (ciphertext, key, nonce, aad) while
`aesGcmDecrypt`'s parameters are (ciphertext, nonce, aad, key),
decryption is attempted under the permuted triple
(key := aad, nonce := key, aad := nonce) and fails with
DECRYPT_FAILED whenever the three values are not all equal. -/
theorem claim_C1_decrypt_argument_order (A : AEAD)
    (parseTx : List Nat → Option WechatTx) (now : Nat) (cfg : WechatCfg)
    (res : WechatResource) (key nonce aad pt : List Nat)
    (henc : res.ciphertext = A.enc key nonce aad pt)
    (hkey : cfg.apiV3Key = key) (hn : res.nonce = nonce)
    (ha : res.associated_data = aad)
    (hne : ¬(key = nonce ∧ nonce = aad)) :
    wechatTransformNotification A parseTx now cfg res =
      Except.error ⟨PayCode.DECRYPT_FAILED, "微信支付回调数据解密失败"⟩ := by
  unfold wechatTransformNotification aesGcmDecrypt
  rw [henc, hkey, hn, ha]
  cases hd : A.dec aad key nonce (A.enc key nonce aad pt) with
  | none => rfl
  | some p2 =>
    exfalso
    obtain ⟨h1, h2, h3, _⟩ := A.auth key nonce aad pt aad key nonce p2 hd
    exact hne ⟨h2, h3⟩

/-- Length-prefixed concatenation: an ideal (information-theoretic)
AEAD instance used to witness the scheme-parametric theorems. -/
def idealEnc (k n a p : List Nat) : List Nat :=
  k.length :: n.length :: a.length :: (k ++ n ++ a ++ p)

/-- Decryption for `idealEnc`: recover and check the triple. -/
def idealDec (k n a c : List Nat) : Option (List Nat) :=
  match c with
  | lk :: ln :: la :: rest =>
    if lk = k.length ∧ ln = n.length ∧ la = a.length ∧
        rest.take lk = k ∧ ((rest.drop lk).take ln) = n ∧
        (((rest.drop lk).drop ln).take la) = a then
      some (((rest.drop lk).drop ln).drop la)
    else none
  | _ => none

theorem idealDec_enc (k n a p : List Nat) :
    idealDec k n a (idealEnc k n a p) = some p := by
  simp [idealDec, idealEnc, List.append_assoc, List.take_left, List.drop_left]

theorem idealDec_auth (k n a p k2 n2 a2 p2 : List Nat)
    (h : idealDec k2 n2 a2 (idealEnc k n a p) = some p2) :
    k2 = k ∧ n2 = n ∧ a2 = a ∧ p2 = p := by
  simp only [idealEnc, idealDec, List.append_assoc] at h
  split_ifs at h with hc
  obtain ⟨hc1, hc2, hc3, hc4, hc5, hc6⟩ := hc
  rw [List.take_left] at hc4
  rw [List.drop_left] at hc5 hc6
  rw [List.take_left] at hc5
  rw [List.drop_left] at hc6
  rw [List.take_left] at hc6
  rw [List.drop_left, List.drop_left, List.drop_left] at h
  injection h with h4
  exact ⟨hc4.symm, hc5.symm, hc6.symm, h4.symm⟩

/-- The ideal AEAD instance. -/
def idealAEAD : AEAD :=
  { enc := idealEnc
    dec := idealDec
    dec_enc := idealDec_enc
    auth := idealDec_auth }

/-- Claim C1, witness: the theorem at a concrete encrypted payload
(key, nonce and associated data pairwise different), where the
embedded `transformNotification` indeed fails with DECRYPT_FAILED. -/
theorem claim_C1_witness :
    wechatTransformNotification idealAEAD (fun _ => none) 0
      ⟨[1, 2]⟩ ⟨idealEnc [1, 2] [3] [4, 5, 6] [9, 9], [3], [4, 5, 6]⟩ =
      Except.error ⟨PayCode.DECRYPT_FAILED, "微信支付回调数据解密失败"⟩ :=
  claim_C1_decrypt_argument_order idealAEAD (fun _ => none) 0
    ⟨[1, 2]⟩ ⟨idealEnc [1, 2] [3] [4, 5, 6] [9, 9], [3], [4, 5, 6]⟩
    [1, 2] [3] [4, 5, 6] [9, 9] rfl rfl rfl rfl (by decide)

/-! ### The XML wire format of `WechatPayV2Client`
(`objectToXml` lines 395-404, `xmlToObject` lines 409-421, `request`
lines 426-469).

`xmlToObject` runs the JavaScript regex
`/<(\w+)>(?:<!\[CDATA\[)?(.*?)(?:\]\]>)?<\/\1>/g` in an `exec` loop.
The embedding below reproduces that regex's backtracking semantics for
this pattern: at each position, `<` then a maximal nonempty run of word
characters then `>`; then the optional CDATA opener (greedy; retrying
without it can never change the outcome because no close pattern can
begin inside `<![CDATA[`); then the lazy `(.*?)` grows one character at
a time (never across a line terminator, which `.` does not match),
preferring `]]></key>` over `</key>` at each stop. -/

/-- `objectToXml`: entries with `undefined` or `''` values are dropped;
the rest serialise as `<k><![CDATA[v]]></k>` inside an `<xml>`
wrapper. -/
def objectToXml (obj : Params) : String :=
  "<xml>" ++
    String.join (obj.map (fun kv =>
      if kv.2 ≠ JsVal.undef ∧ kv.2 ≠ JsVal.vstr "" then
        "<" ++ kv.1 ++ "><![CDATA[" ++ kv.2.render ++ "]]></" ++ kv.1 ++ ">"
      else "")) ++ "</xml>"

/-- JavaScript property assignment `obj[key] = value`: overwrite in
place or append. -/
def objSet (obj : List (String × String)) (k v : String) :
    List (String × String) :=
  if (obj.map Prod.fst).contains k then
    obj.map (fun kv => if kv.1 = k then (k, v) else kv)
  else
    obj ++ [(k, v)]

/-- A word character of the regex class `\w`. -/
def isWordChar (c : Char) : Bool := c.isAlphanum || c = '_'

/-- A JavaScript line terminator (which `.` does not match). -/
def isLineTerm (c : Char) : Bool :=
  c = (Char.ofNat 10) || c = (Char.ofNat 13) ||
    c.toNat = 0x2028 || c.toNat = 0x2029

/-- The lazy `(.*?)(?:\]\]>)?</key>` search: stop at the first
position where `]]></key>` (preferred) or `</key>` matches; fail at a
line terminator or the end of input.  Returns the captured value and
the input remaining after the whole match. -/
def matchClose (key : List Char) : List Char → List Char →
    Option (List Char × List Char)
  | content, acc =>
    if listStartsWith content
        (']' :: ']' :: '>' :: '<' :: '/' :: (key ++ ['>'])) then
      some (acc.reverse, content.drop (key.length + 6))
    else if listStartsWith content ('<' :: '/' :: (key ++ ['>'])) then
      some (acc.reverse, content.drop (key.length + 3))
    else
      match content with
      | [] => none
      | c :: rest =>
        if isLineTerm c then none else matchClose key rest (c :: acc)

/-- One anchored match attempt of the element regex at the head of the
input: key, captured value, rest after the match. -/
def tryMatchAt (l : List Char) : Option (String × String × List Char) :=
  match l with
  | '<' :: rest =>
    let key := rest.takeWhile isWordChar
    if key.isEmpty then none
    else
      match rest.drop key.length with
      | '>' :: afterOpen =>
        let content :=
          if listStartsWith afterOpen
              ('<' :: '!' :: '[' :: 'C' :: 'D' :: 'A' :: 'T' :: 'A' :: ['['])
          then afterOpen.drop 9 else afterOpen
        match matchClose key content [] with
        | some (value, rest2) => some (⟨key⟩, ⟨value⟩, rest2)
        | none => none
      | _ => none
  | _ => none

/-- The `exec` scan loop: find the next match left to right, record it,
continue after it.  Every iteration consumes at least one character, so
`fuel := length + 1` never runs out. -/
def execScan (fuel : Nat) (l : List Char) (obj : List (String × String)) :
    List (String × String) :=
  match fuel with
  | 0 => obj
  | fuel + 1 =>
    match l with
    | [] => obj
    | _ :: rest =>
      match tryMatchAt l with
      | some (k, v, after) => execScan fuel after (objSet obj k v)
      | none => execScan fuel rest obj

/-- `xmlToObject`. -/
def xmlToObject (xml : String) : List (String × String) :=
  execScan (xml.data.length + 1) xml.data []

/-- `WechatPayV2Client.verifySignature` (lines 386-390):
`receivedSign === calculatedSign`; an absent `sign` (undefined) never
equals the computed hex string. -/
def verifySignatureV2 (hash : String → String) (apiKey : String)
    (params : List (String × String)) : Bool :=
  match lookupStr params "sign" with
  | some receivedSign =>
    receivedSign =
      generateSignature hash (params.map (fun kv => (kv.1, JsVal.vstr kv.2))) apiKey
  | none => false

/-- The response handling of `WechatPayV2Client.request`
(lines 447-458): parse the body, and only when the parsed
`return_code` equals `SUCCESS` verify the response signature, raising
VERIFY_FAILED on mismatch; otherwise return the parsed fields. -/
def requestProcess (hash : String → String) (apiKey : String)
    (responseBody : String) : Except PayErr (List (String × String)) :=
  let result := xmlToObject responseBody
  if lookupStr result "return_code" = some "SUCCESS" ∧
      verifySignatureV2 hash apiKey result = false then
    Except.error ⟨.VERIFY_FAILED, "微信支付V2响应签名验证失败"⟩
  else
    Except.ok result

/-! ### Order lemmas for the key sort -/

theorem ltCharList_cons_iff (x y : Char) (xs ys : List Char) :
    ltCharList (x :: xs) (y :: ys) = true ↔
      (x.toNat < y.toNat ∨ (x.toNat = y.toNat ∧ ltCharList xs ys = true)) := by
  simp only [ltCharList]
  by_cases h1 : x.toNat < y.toNat
  · simp [h1]
  · by_cases h2 : y.toNat < x.toNat <;> simp [h1, h2] <;> omega

theorem ltCharList_trans : ∀ (a b c : List Char), ltCharList a b = true →
    ltCharList b c = true → ltCharList a c = true := by
  intro a
  induction a with
  | nil =>
    intro b c h1 h2
    cases b with
    | nil => simp [ltCharList] at h1
    | cons y ys =>
      cases c with
      | nil => simp [ltCharList] at h2
      | cons z zs => simp [ltCharList]
  | cons x xs ih =>
    intro b c h1 h2
    cases b with
    | nil => simp [ltCharList] at h1
    | cons y ys =>
      cases c with
      | nil => simp [ltCharList] at h2
      | cons z zs =>
        rw [ltCharList_cons_iff] at h1 h2 ⊢
        rcases h1 with h1 | ⟨h1, htl1⟩ <;> rcases h2 with h2 | ⟨h2, htl2⟩
        · exact Or.inl (by omega)
        · exact Or.inl (by omega)
        · exact Or.inl (by omega)
        · exact Or.inr ⟨by omega, ih ys zs htl1 htl2⟩

theorem ltCharList_asymm : ∀ (a b : List Char), ltCharList a b = true →
    ltCharList b a = false := by
  intro a
  induction a with
  | nil =>
    intro b h
    cases b with
    | nil => simp [ltCharList] at h
    | cons y ys => simp [ltCharList]
  | cons x xs ih =>
    intro b h
    cases b with
    | nil => simp [ltCharList] at h
    | cons y ys =>
      rw [ltCharList_cons_iff] at h
      cases hba : ltCharList (y :: ys) (x :: xs) with
      | false => rfl
      | true =>
        exfalso
        rw [ltCharList_cons_iff] at hba
        rcases h with h | ⟨h, htl⟩ <;> rcases hba with hb | ⟨hb, htlb⟩
        · omega
        · omega
        · omega
        · have := ih ys htl
          rw [this] at htlb
          exact Bool.false_ne_true htlb

theorem ltCharList_conn : ∀ (a b : List Char), ltCharList a b = false →
    ltCharList b a = false → a = b := by
  intro a
  induction a with
  | nil =>
    intro b h1 _
    cases b with
    | nil => rfl
    | cons y ys => simp [ltCharList] at h1
  | cons x xs ih =>
    intro b h1 h2
    cases b with
    | nil => simp [ltCharList] at h2
    | cons y ys =>
      have hx : ¬ (x.toNat < y.toNat ∨ (x.toNat = y.toNat ∧ ltCharList xs ys = true)) := by
        rw [← ltCharList_cons_iff]
        simp [h1]
      have hy : ¬ (y.toNat < x.toNat ∨ (y.toNat = x.toNat ∧ ltCharList ys xs = true)) := by
        rw [← ltCharList_cons_iff]
        simp [h2]
      push_neg at hx hy
      obtain ⟨hx1, hx2⟩ := hx
      obtain ⟨hy1, hy2⟩ := hy
      have hxy : x.toNat = y.toNat := by omega
      have hchar : x = y := Char.ext (UInt32.ext hxy)
      have htl : xs = ys :=
        ih ys (by simpa using hx2 hxy) (by simpa using hy2 hxy.symm)
      rw [hchar, htl]

theorem strLe_total (a b : String) : strLe a b = true ∨ strLe b a = true := by
  by_cases h : ltCharList b.data a.data = true
  · right
    simp [strLe, strLt, ltCharList_asymm _ _ h]
  · left
    simp [strLe, strLt]
    simpa using h

theorem strLe_antisymm (a b : String) (h1 : strLe a b = true)
    (h2 : strLe b a = true) : a = b := by
  simp only [strLe, strLt, Bool.not_eq_true'] at h1 h2
  have hd : a.data = b.data := ltCharList_conn _ _ h2 h1
  cases a
  cases b
  exact congrArg String.mk hd

theorem strLe_trans (a b c : String) (h1 : strLe a b = true)
    (h2 : strLe b c = true) : strLe a c = true := by
  simp only [strLe, strLt, Bool.not_eq_true'] at h1 h2 ⊢
  cases hca : ltCharList c.data a.data with
  | false => rfl
  | true =>
    exfalso
    cases hab : ltCharList a.data b.data with
    | false =>
      have hd : a.data = b.data := ltCharList_conn _ _ hab h1
      rw [hd] at hca
      rw [h2] at hca
      exact Bool.false_ne_true hca
    | true =>
      have h3 := ltCharList_trans _ _ _ hca hab
      rw [h2] at h3
      exact Bool.false_ne_true h3

instance : IsTotal String jsLeR := ⟨strLe_total⟩

instance : IsTrans String jsLeR := ⟨strLe_trans⟩

instance : IsAntisymm String jsLeR := ⟨strLe_antisymm⟩

/-- Sorting is invariant under permutation of the input list. -/
theorem jsSortKeys_perm_eq {l₁ l₂ : List String} (h : l₁.Perm l₂) :
    jsSortKeys l₁ = jsSortKeys l₂ :=
  List.eq_of_perm_of_sorted
    (((List.perm_insertionSort jsLeR l₁).trans h).trans
      (List.perm_insertionSort jsLeR l₂).symm)
    (List.sorted_insertionSort jsLeR l₁)
    (List.sorted_insertionSort jsLeR l₂)

/-- Association lookup is invariant under permutation when keys are
pairwise distinct. -/
theorem lookupStr_perm {α : Type} : ∀ {l₁ l₂ : List (String × α)},
    l₁.Perm l₂ → (l₁.map Prod.fst).Nodup → ∀ k, lookupStr l₁ k = lookupStr l₂ k := by
  intro l₁ l₂ h
  induction h with
  | nil => intro _ _; rfl
  | cons x h ih =>
    intro nd k
    obtain ⟨x1, x2⟩ := x
    simp only [lookupStr]
    by_cases hk : x1 = k
    · simp [hk]
    · simp only [if_neg hk]
      exact ih (by simpa using (List.nodup_cons.mp (by simpa using nd)).2) k
  | swap x y l =>
    intro nd k
    obtain ⟨x1, x2⟩ := x
    obtain ⟨y1, y2⟩ := y
    have hne : y1 ≠ x1 := by
      simp only [List.map_cons, List.nodup_cons, List.mem_cons] at nd
      exact fun hcontra => nd.1 (Or.inl hcontra)
    simp only [lookupStr]
    by_cases hk1 : y1 = k <;> by_cases hk2 : x1 = k
    · exact absurd (hk1.trans hk2.symm) hne
    · simp [hk1, hk2]
    · simp [hk1, hk2]
    · simp [hk1, hk2]
  | trans h1 h2 ih1 ih2 =>
    intro nd k
    have nd2 := (h1.map Prod.fst).nodup_iff.mp nd
    exact (ih1 nd k).trans (ih2 nd2 k)

/-! ### Properties of the sign-string builders (claim C5) -/

/-- In an association list with pairwise-distinct keys, a key
determines its value. -/
theorem value_unique_of_nodup {α : Type} : ∀ {l : List (String × α)},
    (l.map Prod.fst).Nodup → ∀ {k : String} {v w : α},
    (k, v) ∈ l → (k, w) ∈ l → v = w := by
  intro l
  induction l with
  | nil => intro _ k v w hv _; simp at hv
  | cons x xs ih =>
    intro nd k v w hv hw
    obtain ⟨x1, x2⟩ := x
    simp only [List.map_cons, List.nodup_cons] at nd
    rcases List.mem_cons.mp hv with hv1 | hv1 <;>
      rcases List.mem_cons.mp hw with hw1 | hw1
    · have h2 := hv1.trans hw1.symm
      injection h2
    · exfalso
      apply nd.1
      have hx1 : x1 = k := (congrArg Prod.fst hv1.symm)
      rw [hx1]
      exact List.mem_map_of_mem Prod.fst hw1
    · exfalso
      apply nd.1
      have hx1 : x1 = k := (congrArg Prod.fst hw1.symm)
      rw [hx1]
      exact List.mem_map_of_mem Prod.fst hv1
    · exact ih nd.2 hv1 hw1

theorem alipayFiltered_keys (params : Params) :
    (alipayFiltered params).map Prod.fst = (params.filter alipayKeep).map Prod.fst := by
  simp [alipayFiltered, List.map_map, Function.comp]

/-- `buildSignString` is invariant under reordering of the input
parameter map. -/
theorem buildSignString_perm (p₁ p₂ : Params) (h : p₁.Perm p₂)
    (nd : (p₁.map Prod.fst).Nodup) : buildSignString p₁ = buildSignString p₂ := by
  have hf : (alipayFiltered p₁).Perm (alipayFiltered p₂) :=
    (h.filter alipayKeep).map _
  have ndf : ((alipayFiltered p₁).map Prod.fst).Nodup := by
    rw [alipayFiltered_keys]
    exact List.Nodup.sublist (List.Sublist.map Prod.fst (List.filter_sublist p₁)) nd
  have hlk : ∀ k, lookupStr (alipayFiltered p₁) k = lookupStr (alipayFiltered p₂) k :=
    lookupStr_perm hf ndf
  have hfun : (fun k => k ++ "=" ++ ((lookupStr (alipayFiltered p₁) k).getD ""))
      = (fun k => k ++ "=" ++ ((lookupStr (alipayFiltered p₂) k).getD "")) :=
    funext (fun k => by rw [hlk k])
  simp only [buildSignString]
  rw [jsSortKeys_perm_eq (hf.map Prod.fst), hfun]

/-- `wechatSignString` is invariant under reordering of the input
parameter map. -/
theorem wechatSignString_perm (p₁ p₂ : Params) (apiKey : String)
    (h : p₁.Perm p₂) (nd : (p₁.map Prod.fst).Nodup) :
    wechatSignString p₁ apiKey = wechatSignString p₂ apiKey := by
  have hf : (wechatFiltered p₁).Perm (wechatFiltered p₂) := h.filter wechatKeep
  have ndf : ((wechatFiltered p₁).map Prod.fst).Nodup :=
    List.Nodup.sublist (List.Sublist.map Prod.fst (List.filter_sublist p₁)) nd
  have hlk : ∀ k, lookupStr (wechatFiltered p₁) k = lookupStr (wechatFiltered p₂) k :=
    lookupStr_perm hf ndf
  have hfun : (fun k => k ++ "=" ++ ((lookupStr (wechatFiltered p₁) k).getD JsVal.undef).render)
      = (fun k => k ++ "=" ++ ((lookupStr (wechatFiltered p₂) k).getD JsVal.undef).render) :=
    funext (fun k => by rw [hlk k])
  simp only [wechatSignString]
  rw [jsSortKeys_perm_eq (hf.map Prod.fst), hfun]

/-- A key whose value `AlipayProvider.buildSignString` filters out does
not occur among the keys of the canonical string. -/
theorem alipay_excludes (params : Params) (nd : (params.map Prod.fst).Nodup)
    (k : String) (v : JsVal) (hmem : (k, v) ∈ params)
    (hexc : v = JsVal.vstr "" ∨ v = JsVal.null ∨ v = JsVal.undef ∨
      k = "sign" ∨ k = "sign_type") :
    k ∉ (alipayFiltered params).map Prod.fst := by
  intro hk
  rw [alipayFiltered_keys] at hk
  obtain ⟨kv, hw, hk2⟩ := List.mem_map.mp hk
  obtain ⟨k2, w⟩ := kv
  obtain ⟨hwl, hkeep⟩ := List.mem_filter.mp hw
  have hkk : k2 = k := hk2
  subst hkk
  have hvw : v = w := value_unique_of_nodup nd hmem hwl
  rw [← hvw] at hkeep
  simp only [alipayKeep, Bool.and_eq_true, decide_eq_true_eq,
    bne_iff_ne, ne_eq] at hkeep
  rcases hexc with h | h | h | h | h <;> simp [h] at hkeep

/-- A key whose value `WechatPayV2Client.generateSignature` filters out
does not occur among the keys of the canonical string. -/
theorem wechat_excludes (params : Params) (nd : (params.map Prod.fst).Nodup)
    (k : String) (v : JsVal) (hmem : (k, v) ∈ params)
    (hexc : v = JsVal.vstr "" ∨ v = JsVal.undef ∨ k = "sign") :
    k ∉ (wechatFiltered params).map Prod.fst := by
  intro hk
  obtain ⟨kv, hw, hk2⟩ := List.mem_map.mp hk
  obtain ⟨k2, w⟩ := kv
  obtain ⟨hwl, hkeep⟩ := List.mem_filter.mp hw
  have hkk : k2 = k := hk2
  subst hkk
  have hvw : v = w := value_unique_of_nodup nd hmem hwl
  rw [← hvw] at hkeep
  simp only [wechatKeep, Bool.and_eq_true, decide_eq_true_eq,
    bne_iff_ne, ne_eq] at hkeep
  rcases hexc with h | h | h <;> simp [h] at hkeep

/-- Claim C5, counterexample.  The claim states that both canonical
sign-string builders strictly exclude every key whose value is `null`.
`WechatPayV2Client.generateSignature` filters only `undefined` and the
empty string (`params[key] !== undefined && params[key] !== ''`), so a
`null`-valued key survives and is rendered as `a=null` in the canonical
string. -/
theorem claim_C5_counterexample :
    "a" ∈ (wechatFiltered [("a", JsVal.null)]).map Prod.fst ∧
      wechatSignString [("a", JsVal.null)] "K" = "a=null&key=K" := by
  constructor
  · decide
  · decide

/-- Claim C5, amended.  For every parameter map with pairwise-distinct
keys, both canonical sign-string builders are invariant under input key
reordering; `AlipayProvider.buildSignString` strictly excludes every
key whose value is the empty string, `null` or `undefined` as well as
the `sign` and `sign_type` keys; `WechatPayV2Client.generateSignature`
strictly excludes every key whose value is the empty string or
`undefined` as well as the `sign` key (but keeps `null`-valued keys);
and the keyed-hash builder appends the trailing `&key=<sharedSecret>`
suffix before hashing. -/
theorem claim_C5_canonical_builders (p₁ p₂ : Params) (hperm : p₁.Perm p₂)
    (nd : (p₁.map Prod.fst).Nodup) (apiKey : String) (hash : String → String) :
    (buildSignString p₁ = buildSignString p₂) ∧
    (wechatSignString p₁ apiKey = wechatSignString p₂ apiKey) ∧
    (generateSignature hash p₁ apiKey = generateSignature hash p₂ apiKey) ∧
    (∀ k v, (k, v) ∈ p₁ →
      (v = JsVal.vstr "" ∨ v = JsVal.null ∨ v = JsVal.undef ∨
        k = "sign" ∨ k = "sign_type") →
      k ∉ (alipayFiltered p₁).map Prod.fst) ∧
    (∀ k v, (k, v) ∈ p₁ →
      (v = JsVal.vstr "" ∨ v = JsVal.undef ∨ k = "sign") →
      k ∉ (wechatFiltered p₁).map Prod.fst) ∧
    (∃ s, wechatSignString p₁ apiKey = s ++ "&key=" ++ apiKey ∧
      generateSignature hash p₁ apiKey = hash (s ++ "&key=" ++ apiKey)) := by
  refine ⟨buildSignString_perm p₁ p₂ hperm nd,
    wechatSignString_perm p₁ p₂ apiKey hperm nd,
    congrArg hash (wechatSignString_perm p₁ p₂ apiKey hperm nd),
    fun k v hmem hexc => alipay_excludes p₁ nd k v hmem hexc,
    fun k v hmem hexc => wechat_excludes p₁ nd k v hmem hexc,
    ?_⟩
  refine ⟨String.intercalate "&"
    ((jsSortKeys ((wechatFiltered p₁).map Prod.fst)).map (fun k =>
      k ++ "=" ++ ((lookupStr (wechatFiltered p₁) k).getD JsVal.undef).render)), rfl, rfl⟩

/-- Claim C5, witness: the amended theorem applied at concrete inputs. -/
theorem claim_C5_witness :
    (buildSignString [("b", JsVal.vstr "2"), ("a", JsVal.vstr "1")]
      = buildSignString [("a", JsVal.vstr "1"), ("b", JsVal.vstr "2")]) ∧
    ("e" ∉ (alipayFiltered [("e", JsVal.vstr ""), ("a", JsVal.vstr "1")]).map Prod.fst) := by
  constructor
  · exact (claim_C5_canonical_builders
      [("b", JsVal.vstr "2"), ("a", JsVal.vstr "1")]
      [("a", JsVal.vstr "1"), ("b", JsVal.vstr "2")]
      (List.Perm.swap _ _ _) (by decide) "K" (fun s => s)).1
  · exact (claim_C5_canonical_builders
      [("e", JsVal.vstr ""), ("a", JsVal.vstr "1")]
      [("e", JsVal.vstr ""), ("a", JsVal.vstr "1")]
      (List.Perm.refl _) (by decide) "K" (fun s => s)).2.2.2.1
      "e" (JsVal.vstr "") (by decide) (Or.inl rfl)

/-- Claim C4: for a structurally valid GatewayB (alipay) callback whose
RSA2 signature does not verify (the idealisation of a `sign` field with
one tampered character), `handleNotify` throws a VERIFY_FAILED
`PaymentError`, and `AlipayProvider.createResponse` for that failure
produces the short failure body (`failure`) with HTTP status 400 and
`text/plain` content type. -/
theorem claim_C4_tampered_sign_ack
    (verify2 verify1 : String → String → String → Bool)
    (parseYuanToFen : String → Int) (now : Nat) (cfg : AlipayCfg) (params : Params)
    (h_en : cfg.enabled = true)
    (h_valid : alipayValidatePayload (some params) = Except.ok ())
    (h_rsa2 : lookupStr params "sign_type" = some (JsVal.vstr "RSA2"))
    (h_rej : verify2 (buildSignString params) (jsvalStr (lookupStr params "sign"))
      cfg.alipayPublicKey = false) :
    alipayHandleNotify verify2 verify1 parseYuanToFen now cfg (some params)
      = Except.error ⟨PayCode.VERIFY_FAILED, "alipay 签名验证失败: 签名验证失败"⟩ ∧
    alipayCreateResponse false (some "alipay 签名验证失败: 签名验证失败")
      = ⟨400, "failure", "text/plain"⟩ := by
  constructor
  · simp [alipayHandleNotify, h_en, h_valid, alipayVerifySignature, h_rsa2,
      h_rej, bind, Except.bind]
    rfl
  · have hni : jsIncludes "alipay 签名验证失败: 签名验证失败" "验签" = false := by decide
    simp [alipayCreateResponse, hni]

/-- Claim C4, witness: a concrete enabled configuration and callback
payload on which the RSA2 check rejects. -/
theorem claim_C4_witness :
    alipayHandleNotify (fun _ _ _ => false) (fun _ _ _ => false) (fun _ => 0) 0
      ⟨true, "PUB"⟩ (some
        [("notify_id", JsVal.vstr "N1"),
         ("notify_type", JsVal.vstr "trade_status_sync"),
         ("trade_status", JsVal.vstr "TRADE_SUCCESS"),
         ("out_trade_no", JsVal.vstr "ORDER1"),
         ("trade_no", JsVal.vstr "T1"),
         ("total_amount", JsVal.vstr "1.00"),
         ("buyer_id", JsVal.vstr "B1"),
         ("sign", JsVal.vstr "TAMPERED"),
         ("sign_type", JsVal.vstr "RSA2")])
      = Except.error ⟨PayCode.VERIFY_FAILED, "alipay 签名验证失败: 签名验证失败"⟩ ∧
    alipayCreateResponse false (some "alipay 签名验证失败: 签名验证失败")
      = ⟨400, "failure", "text/plain"⟩ :=
  claim_C4_tampered_sign_ack (fun _ _ _ => false) (fun _ _ _ => false)
    (fun _ => 0) 0 ⟨true, "PUB"⟩ _ rfl rfl rfl rfl

/-- Claim C7: every gateway trade-status string outside the explicit
mapping tables of `WechatProvider.mapTradeStatus` and
`AlipayProvider.mapTradeStatus` is mapped to PENDING (hence never to
SUCCESS and never to FAIL). -/
theorem claim_C7_unknown_status_pending (s t : String)
    (hs : s ∉ ["SUCCESS", "REFUND", "CLOSED", "REVOKED", "PAYERROR",
      "USERPAYING", "NOTPAY"])
    (ht : t ∉ ["TRADE_SUCCESS", "TRADE_FINISHED", "TRADE_CLOSED",
      "WAIT_BUYER_PAY"]) :
    wechatMapTradeStatus s = TradeStatus.PENDING ∧
      alipayMapTradeStatus t = TradeStatus.PENDING := by
  simp only [List.mem_cons, List.not_mem_nil, or_false, not_or] at hs ht
  obtain ⟨hs1, hs2, hs3, hs4, hs5, hs6, hs7⟩ := hs
  obtain ⟨ht1, ht2, ht3, ht4⟩ := ht
  constructor
  · simp [wechatMapTradeStatus, hs1, hs2, hs3, hs4, hs5, hs6, hs7]
  · simp [alipayMapTradeStatus, ht1, ht2, ht3, ht4]

/-- Claim C7, witness: concrete unknown status codes map to PENDING. -/
theorem claim_C7_witness :
    wechatMapTradeStatus "ACCEPTED" = TradeStatus.PENDING ∧
      alipayMapTradeStatus "TRADE_PENDING" = TradeStatus.PENDING :=
  claim_C7_unknown_status_pending "ACCEPTED" "TRADE_PENDING"
    (by decide) (by decide)

/-- Claim C10, evaluation at the failing input.  `objectToXml` does
drop `undefined`/`''` entries as claimed, but the round-trip fails for
every map: the regex of `xmlToObject` matches the outer `<xml>` element
first (its lazy content spans the whole body), so
`xmlToObject(objectToXml m)` is the single-entry map
`{xml: <inner markup>}`, never `m`. -/
theorem claim_C10_xml_roundtrip_bug :
    objectToXml [("a", JsVal.vstr "1")] = "<xml><a><![CDATA[1]]></a></xml>" ∧
    xmlToObject (objectToXml [("a", JsVal.vstr "1")]) =
      [("xml", "<a><![CDATA[1]]></a>")] ∧
    xmlToObject (objectToXml [("a", JsVal.vstr "1")]) ≠ [("a", "1")] ∧
    objectToXml [("a", JsVal.vstr "1"), ("b", JsVal.undef), ("c", JsVal.vstr "")] =
      "<xml><a><![CDATA[1]]></a></xml>" :=
  ⟨rfl, by decide, by decide, rfl⟩

/-- Claim C6, counterexample.  A response whose recomputed keyed hash
does not equal its `sign` field, but whose `return_code` is not
`SUCCESS`, is returned to the caller with all its fields — no
VERIFY_FAILED is raised, refuting "for every response". -/
theorem claim_C6_counterexample :
    requestProcess (fun _ => "ZZ") "K"
        "<return_code>FAIL</return_code><sign>AB</sign>" =
      Except.ok [("return_code", "FAIL"), ("sign", "AB")] ∧
    verifySignatureV2 (fun _ => "ZZ") "K"
      [("return_code", "FAIL"), ("sign", "AB")] = false :=
  ⟨rfl, rfl⟩

/-- Claim C6, amended.  `WechatPayV2Client.request` verifies the
response's keyed hash only when the parsed response's `return_code`
equals `SUCCESS`: in that case a recomputed hash differing from the
`sign` field raises VERIFY_FAILED and no fields are returned; any
response whose `return_code` is not `SUCCESS` (and any response whose
hash verifies) is returned to the caller without a signature check. -/
theorem claim_C6_response_verification (hash : String → String)
    (apiKey : String) (responseBody : String) :
    (lookupStr (xmlToObject responseBody) "return_code" = some "SUCCESS" →
      verifySignatureV2 hash apiKey (xmlToObject responseBody) = false →
      requestProcess hash apiKey responseBody =
        Except.error ⟨PayCode.VERIFY_FAILED, "微信支付V2响应签名验证失败"⟩) ∧
    (lookupStr (xmlToObject responseBody) "return_code" ≠ some "SUCCESS" →
      requestProcess hash apiKey responseBody =
        Except.ok (xmlToObject responseBody)) ∧
    (verifySignatureV2 hash apiKey (xmlToObject responseBody) = true →
      requestProcess hash apiKey responseBody =
        Except.ok (xmlToObject responseBody)) := by
  refine ⟨fun h1 h2 => ?_, fun h1 => ?_, fun hv => ?_⟩
  · simp only [requestProcess]
    rw [if_pos ⟨h1, h2⟩]
  · simp only [requestProcess]
    rw [if_neg (fun hc => h1 hc.1)]
  · simp only [requestProcess]
    rw [if_neg (fun hc => by
      rw [hv] at hc
      exact Bool.noConfusion hc.2)]

/-- Claim C6, witness: a SUCCESS response with a wrong hash is
rejected; a non-SUCCESS response is returned unverified. -/
theorem claim_C6_witness :
    requestProcess (fun _ => "ZZ") "K"
        "<return_code>SUCCESS</return_code><sign>AB</sign>" =
      Except.error ⟨PayCode.VERIFY_FAILED, "微信支付V2响应签名验证失败"⟩ ∧
    requestProcess (fun _ => "ZZ") "K" "<return_code>NOTICE</return_code>" =
      Except.ok [("return_code", "NOTICE")] :=
  ⟨(claim_C6_response_verification (fun _ => "ZZ") "K"
      "<return_code>SUCCESS</return_code><sign>AB</sign>").1 (by decide) (by decide),
    (claim_C6_response_verification (fun _ => "ZZ") "K"
      "<return_code>NOTICE</return_code>").2.1 (by decide)⟩

end PayStream
